import Mathlib

/-!
Verification of the login route of the gospel-stack repository
(src/app/routes/login.tsx).

The route consists of a `loader` (pre-render guard) and an `action`
(form-submission handler).  The external collaborators declared in
`~/session.server`, `~/models/user.server` and `~/utils` —
`getUserId`, `createUserSession`, `verifyLogin`, `validateEmail` — are
outside this file, so the embedding is parameterised over them:
`validateEmail` and `verifyLogin` are oracle arguments, the result of
`getUserId(request)` is an argument of `loader`, and the response of
`createUserSession` is represented by a constructor recording exactly
the arguments the action passes to it.
-/

namespace GospelStack

/-- A value stored in a form-data entry (`FormDataEntryValue`): a string
or a file.  `formData.get` returns such a value or `null`; absence is
modelled by `Option`. -/
inductive FormValue where
  | str (s : String)
  | file
deriving DecidableEq

/-- The four form fields the action reads: `email`, `password`,
`redirectTo` and `remember`, each as returned by `formData.get`
(`none` when the field is absent). -/
structure LoginForm where
  email : Option FormValue
  password : Option FormValue
  redirectTo : Option FormValue
  remember : Option FormValue
deriving DecidableEq

/-- The `errors` object of the action's JSON error body
(interface `ActionData` in the source): optional `email` and
`password` messages. -/
structure ActionErrors where
  email : Option String
  password : Option String
deriving DecidableEq

/-- The user record returned by `verifyLogin`; the action only uses its
`id` field. -/
structure User where
  id : String
deriving DecidableEq

/-- The action's result: either `json({ errors }, { status })` — an
error response with a status code and an errors object — or the
response of `createUserSession`, recorded with the `userId`,
`remember` and `redirectTo` arguments the action passed to it. -/
inductive ActionResult where
  | errorResponse (status : Nat) (errors : ActionErrors)
  | sessionResponse (userId : String) (remember : Bool) (redirectTo : String)
deriving DecidableEq

/-- The login `action` of src/app/routes/login.tsx, lines 40-83,
parameterised by the collaborators `validateEmail` (applied to the raw
`email` form value) and `verifyLogin` (applied to the raw `email` form
value and the password string).  Mirrors the source: reject with
"Email is invalid" when `validateEmail` fails; with
"Password is required" when the password is not a string; with
"Password is too short" when its length is below 8; with
"Invalid email or password" when `verifyLogin` yields no user;
otherwise delegate to `createUserSession` with the user's id,
`remember === "on"`, and `redirectTo` when it is a string, else
"/notes". -/
def action (validateEmail : Option FormValue → Bool)
    (verifyLogin : Option FormValue → String → Option User)
    (fd : LoginForm) : ActionResult :=
  if !(validateEmail fd.email) then
    ActionResult.errorResponse 400 ⟨some "Email is invalid", none⟩
  else
    match fd.password with
    | some (FormValue.str password) =>
      if password.length < 8 then
        ActionResult.errorResponse 400 ⟨none, some "Password is too short"⟩
      else
        match verifyLogin fd.email password with
        | none =>
          ActionResult.errorResponse 400 ⟨some "Invalid email or password", none⟩
        | some user =>
          ActionResult.sessionResponse user.id
            (if fd.remember = some (FormValue.str "on") then true else false)
            (match fd.redirectTo with
             | some (FormValue.str r) => r
             | _ => "/notes")
    | _ => ActionResult.errorResponse 400 ⟨none, some "Password is required"⟩

/-- The loader's result: a redirect response or the normal render
payload `json({})`. -/
inductive LoaderResult where
  | redirectResponse (target : String)
  | renderPayload
deriving DecidableEq

/-- The `loader` of src/app/routes/login.tsx, lines 27-31.  `userId` is
the value `getUserId(request)` resolved to (`undefined` modelled as
`none`).  The source guard is `if (userId) return redirect("/")`:
JavaScript truthiness, under which the empty string is falsy. -/
def loader (userId : Option String) : LoaderResult :=
  match userId with
  | some s => if s = "" then LoaderResult.renderPayload
              else LoaderResult.redirectResponse "/"
  | none => LoaderResult.renderPayload

/-- C5: for every form submission whose email field fails
`validateEmail`, the action returns an HTTP 400 response whose body is
`{ errors: { email } }` carrying an email-field error message (namely
"Email is invalid", with no password-field entry). -/
theorem action_invalid_email_error
    (validateEmail : Option FormValue → Bool)
    (verifyLogin : Option FormValue → String → Option User)
    (fd : LoginForm) (hve : validateEmail fd.email = false) :
    action validateEmail verifyLogin fd =
      ActionResult.errorResponse 400 ⟨some "Email is invalid", none⟩ := by
  simp [action, hve]

/-- Witness for `action_invalid_email_error` at a concrete input. -/
theorem action_invalid_email_error_witness :
    (fun (_ : Option FormValue) => false) (some (FormValue.str "nope")) = false ∧
    action (fun _ => false) (fun _ _ => none)
      ⟨some (FormValue.str "nope"), some (FormValue.str "password123"),
        none, none⟩ =
      ActionResult.errorResponse 400 ⟨some "Email is invalid", none⟩ :=
  ⟨rfl, action_invalid_email_error (fun _ => false) (fun _ _ => none)
    ⟨some (FormValue.str "nope"), some (FormValue.str "password123"),
      none, none⟩ rfl⟩

/-- C6: for every form submission whose email passes validation but
whose password is under 8 characters — including a missing or
non-string password — the action returns an HTTP 400 response carrying
a password-field error message (and no email-field entry). -/
theorem action_short_password_error
    (validateEmail : Option FormValue → Bool)
    (verifyLogin : Option FormValue → String → Option User)
    (fd : LoginForm) (hve : validateEmail fd.email = true)
    (h : (∀ s, fd.password ≠ some (FormValue.str s)) ∨
      ∃ pw, fd.password = some (FormValue.str pw) ∧ pw.length < 8) :
    ∃ msg, action validateEmail verifyLogin fd =
      ActionResult.errorResponse 400 ⟨none, some msg⟩ := by
  rcases h with h | ⟨pw, hpw, hlen⟩
  · match hfd : fd.password with
    | some (FormValue.str s) => exact absurd hfd (h s)
    | some FormValue.file => exact ⟨"Password is required", by simp [action, hve, hfd]⟩
    | none => exact ⟨"Password is required", by simp [action, hve, hfd]⟩
  · exact ⟨"Password is too short", by simp [action, hve, hpw, hlen]⟩

/-- Witness for `action_short_password_error` at a concrete input: a
missing password field. -/
theorem action_short_password_error_witness :
    ∃ msg, action (fun _ => true) (fun _ _ => none)
      ⟨some (FormValue.str "user@example.com"), none, none, none⟩ =
      ActionResult.errorResponse 400 ⟨none, some msg⟩ :=
  action_short_password_error (fun _ => true) (fun _ _ => none)
    ⟨some (FormValue.str "user@example.com"), none, none, none⟩ rfl
    (Or.inl (fun s h => by cases h))

/-- C4: for every form submission whose email and password pass
validation but for which `verifyLogin` returns no user, the action
returns an HTTP 400 response whose errors object carries the message
"Invalid email or password" on the email field. -/
theorem action_unknown_credentials_error
    (validateEmail : Option FormValue → Bool)
    (verifyLogin : Option FormValue → String → Option User)
    (fd : LoginForm) (pw : String)
    (hve : validateEmail fd.email = true)
    (hpw : fd.password = some (FormValue.str pw))
    (hlen : 8 ≤ pw.length)
    (hvl : verifyLogin fd.email pw = none) :
    action validateEmail verifyLogin fd =
      ActionResult.errorResponse 400 ⟨some "Invalid email or password", none⟩ := by
  simp [action, hve, hpw, Nat.not_lt.mpr hlen, hvl]

/-- Witness for `action_unknown_credentials_error` at a concrete
input. -/
theorem action_unknown_credentials_error_witness :
    action (fun _ => true) (fun _ _ => none)
      ⟨some (FormValue.str "user@example.com"),
        some (FormValue.str "password123"), none, none⟩ =
      ActionResult.errorResponse 400 ⟨some "Invalid email or password", none⟩ :=
  action_unknown_credentials_error (fun _ => true) (fun _ _ => none)
    ⟨some (FormValue.str "user@example.com"),
      some (FormValue.str "password123"), none, none⟩
    "password123" rfl rfl (by decide) rfl

/-- C1: for every POST form submission whose email passes
`validateEmail`, whose password is a string of length at least 8, and
for which `verifyLogin` returns a user, the action returns exactly the
response of `createUserSession` called with that user's id and a
redirect target equal to the submitted `redirectTo` field when that
field is a string, and "/notes" otherwise (including when the field is
absent). -/
theorem action_valid_credentials_creates_session
    (validateEmail : Option FormValue → Bool)
    (verifyLogin : Option FormValue → String → Option User)
    (fd : LoginForm) (pw : String) (u : User)
    (hve : validateEmail fd.email = true)
    (hpw : fd.password = some (FormValue.str pw))
    (hlen : 8 ≤ pw.length)
    (hvl : verifyLogin fd.email pw = some u) :
    ∃ rem, action validateEmail verifyLogin fd =
      ActionResult.sessionResponse u.id rem
        (match fd.redirectTo with
         | some (FormValue.str r) => r
         | _ => "/notes") := by
  refine ⟨if fd.remember = some (FormValue.str "on") then true else false, ?_⟩
  simp [action, hve, hpw, Nat.not_lt.mpr hlen, hvl]

/-- Witness for `action_valid_credentials_creates_session` at a
concrete input, with a string `redirectTo` field. -/
theorem action_valid_credentials_creates_session_witness :
    ∃ rem, action (fun _ => true) (fun _ _ => some ⟨"user-1"⟩)
      ⟨some (FormValue.str "user@example.com"),
        some (FormValue.str "password123"),
        some (FormValue.str "/dashboard"), none⟩ =
      ActionResult.sessionResponse "user-1" rem "/dashboard" :=
  action_valid_credentials_creates_session (fun _ => true)
    (fun _ _ => some ⟨"user-1"⟩)
    ⟨some (FormValue.str "user@example.com"),
      some (FormValue.str "password123"),
      some (FormValue.str "/dashboard"), none⟩
    "password123" ⟨"user-1"⟩ rfl rfl (by decide) rfl

/-- C2: the action validates in a fixed order — email format first,
then password being a string, then password length at least 8 — and at
the first failing check returns the client error for that field; the
universally quantified `vl` shows the credential verifier is never
consulted on these paths, and the fully determined response shows no
later check influences the result. -/
theorem action_validation_order_first_failure
    (ve : Option FormValue → Bool) (fd : LoginForm) :
    (ve fd.email = false →
      ∀ vl, action ve vl fd =
        ActionResult.errorResponse 400 ⟨some "Email is invalid", none⟩) ∧
    (ve fd.email = true → (∀ s, fd.password ≠ some (FormValue.str s)) →
      ∀ vl, action ve vl fd =
        ActionResult.errorResponse 400 ⟨none, some "Password is required"⟩) ∧
    (∀ pw, ve fd.email = true → fd.password = some (FormValue.str pw) →
      pw.length < 8 →
      ∀ vl, action ve vl fd =
        ActionResult.errorResponse 400 ⟨none, some "Password is too short"⟩) := by
  refine ⟨fun hve vl => by simp [action, hve], fun hve hns vl => ?_,
    fun pw hve hpw hlen vl => by simp [action, hve, hpw, hlen]⟩
  match hfd : fd.password with
  | some (FormValue.str s) => exact absurd hfd (hns s)
  | some FormValue.file => simp [action, hve, hfd]
  | none => simp [action, hve, hfd]

/-- Witness for `action_validation_order_first_failure`: each of the
three conjuncts applied at a concrete input. -/
theorem action_validation_order_first_failure_witness :
    action (fun _ => false) (fun _ _ => none)
      ⟨some (FormValue.str "x"), some (FormValue.str "password123"),
        none, none⟩ =
      ActionResult.errorResponse 400 ⟨some "Email is invalid", none⟩ ∧
    action (fun _ => true) (fun _ _ => none)
      ⟨some (FormValue.str "user@example.com"), some FormValue.file,
        none, none⟩ =
      ActionResult.errorResponse 400 ⟨none, some "Password is required"⟩ ∧
    action (fun _ => true) (fun _ _ => none)
      ⟨some (FormValue.str "user@example.com"), some (FormValue.str "short"),
        none, none⟩ =
      ActionResult.errorResponse 400 ⟨none, some "Password is too short"⟩ :=
  ⟨(action_validation_order_first_failure (fun _ => false)
      ⟨some (FormValue.str "x"), some (FormValue.str "password123"),
        none, none⟩).1 rfl _,
   (action_validation_order_first_failure (fun _ => true)
      ⟨some (FormValue.str "user@example.com"), some FormValue.file,
        none, none⟩).2.1 rfl (fun s h => by cases h) _,
   (action_validation_order_first_failure (fun _ => true)
      ⟨some (FormValue.str "user@example.com"), some (FormValue.str "short"),
        none, none⟩).2.2 "short" rfl rfl (by decide) _⟩

/-- C7: whenever the action delegates to `createUserSession`, the
`remember` argument is `true` exactly when the submitted "remember"
form value is the string "on"; for every other value (absent, any
other string, or a file) it is `false`. -/
theorem action_remember_flag_iff_on
    (ve : Option FormValue → Bool)
    (vl : Option FormValue → String → Option User)
    (fd : LoginForm) (uid : String) (rem : Bool) (rt : String)
    (h : action ve vl fd = ActionResult.sessionResponse uid rem rt) :
    rem = true ↔ fd.remember = some (FormValue.str "on") := by
  by_cases hve : ve fd.email
  · match hfd : fd.password with
    | some (FormValue.str pw) =>
      by_cases hlen : pw.length < 8
      · simp [action, hve, hfd, hlen] at h
      · match hvl : vl fd.email pw with
        | none => simp [action, hve, hfd, hlen, hvl] at h
        | some u =>
          simp [action, hve, hfd, hlen, hvl] at h
          rcases h with ⟨-, hrem, -⟩
          by_cases hon : fd.remember = some (FormValue.str "on") <;>
            simp [hon] at hrem <;> simp [hon, hrem]
    | some FormValue.file => simp [action, hve, hfd] at h
    | none => simp [action, hve, hfd] at h
  · simp [action, hve] at h

/-- Witness for `action_remember_flag_iff_on` at a concrete input whose
"remember" field is the string "on". -/
theorem action_remember_flag_iff_on_witness :
    (true = true ↔
      (some (FormValue.str "on") : Option FormValue) =
        some (FormValue.str "on")) :=
  action_remember_flag_iff_on (fun _ => true) (fun _ _ => some ⟨"user-1"⟩)
    ⟨some (FormValue.str "user@example.com"),
      some (FormValue.str "password123"), none,
      some (FormValue.str "on")⟩
    "user-1" true "/notes" (by decide)

/-- C8: every error response the action returns sets exactly one of the
two fields of the errors object — either `email` or `password`, never
both and never neither. -/
theorem action_error_single_field
    (ve : Option FormValue → Bool)
    (vl : Option FormValue → String → Option User)
    (fd : LoginForm) (st : Nat) (errs : ActionErrors)
    (h : action ve vl fd = ActionResult.errorResponse st errs) :
    (errs.email.isSome ∧ errs.password = none) ∨
    (errs.email = none ∧ errs.password.isSome) := by
  by_cases hve : ve fd.email
  · match hfd : fd.password with
    | some (FormValue.str pw) =>
      by_cases hlen : pw.length < 8
      · simp [action, hve, hfd, hlen] at h
        rcases h with ⟨-, h⟩
        simp [← h]
      · match hvl : vl fd.email pw with
        | none =>
          simp [action, hve, hfd, hlen, hvl] at h
          rcases h with ⟨-, h⟩
          simp [← h]
        | some u => simp [action, hve, hfd, hlen, hvl] at h
    | some FormValue.file =>
      simp [action, hve, hfd] at h
      rcases h with ⟨-, h⟩
      simp [← h]
    | none =>
      simp [action, hve, hfd] at h
      rcases h with ⟨-, h⟩
      simp [← h]
  · simp [action, hve] at h
    rcases h with ⟨-, h⟩
    simp [← h]

/-- Witness for `action_error_single_field` at a concrete input failing
email validation. -/
theorem action_error_single_field_witness :
    ((some "Email is invalid" : Option String).isSome ∧
      (none : Option String) = none) ∨
    ((some "Email is invalid" : Option String) = none ∧
      (none : Option String).isSome) :=
  action_error_single_field (fun _ => false) (fun _ _ => none)
    ⟨some (FormValue.str "x"), none, none, none⟩
    400 ⟨some "Email is invalid", none⟩ (by simp [action])

/-- C9: on every failure path of the action — email invalid, password
missing or not a string, password too short, or `verifyLogin`
returning no user — the action returns a 400 error response and never
a `createUserSession` response, so no session is created on error. -/
theorem action_failure_no_session
    (ve : Option FormValue → Bool)
    (vl : Option FormValue → String → Option User)
    (fd : LoginForm)
    (h : ve fd.email = false ∨
      (∀ s, fd.password ≠ some (FormValue.str s)) ∨
      (∃ pw, fd.password = some (FormValue.str pw) ∧ pw.length < 8) ∨
      (∃ pw, fd.password = some (FormValue.str pw) ∧
        vl fd.email pw = none)) :
    (∃ errs, action ve vl fd = ActionResult.errorResponse 400 errs) ∧
    ∀ uid rem rt, action ve vl fd ≠ ActionResult.sessionResponse uid rem rt := by
  have herr : ∃ errs, action ve vl fd = ActionResult.errorResponse 400 errs := by
    rcases h with hve | hns | ⟨pw, hpw, hlen⟩ | ⟨pw, hpw, hvl⟩
    · exact ⟨⟨some "Email is invalid", none⟩, by simp [action, hve]⟩
    · match hfd : fd.password with
      | some (FormValue.str s) => exact absurd hfd (hns s)
      | some FormValue.file =>
        by_cases hve : ve fd.email
        · exact ⟨⟨none, some "Password is required"⟩, by simp [action, hve, hfd]⟩
        · exact ⟨⟨some "Email is invalid", none⟩, by simp [action, hve]⟩
      | none =>
        by_cases hve : ve fd.email
        · exact ⟨⟨none, some "Password is required"⟩, by simp [action, hve, hfd]⟩
        · exact ⟨⟨some "Email is invalid", none⟩, by simp [action, hve]⟩
    · by_cases hve : ve fd.email
      · exact ⟨⟨none, some "Password is too short"⟩,
          by simp [action, hve, hpw, hlen]⟩
      · exact ⟨⟨some "Email is invalid", none⟩, by simp [action, hve]⟩
    · by_cases hve : ve fd.email
      · by_cases hlen : pw.length < 8
        · exact ⟨⟨none, some "Password is too short"⟩,
            by simp [action, hve, hpw, hlen]⟩
        · exact ⟨⟨some "Invalid email or password", none⟩,
            by simp [action, hve, hpw, hlen, hvl]⟩
      · exact ⟨⟨some "Email is invalid", none⟩, by simp [action, hve]⟩
  refine ⟨herr, fun uid rem rt hcontra => ?_⟩
  rcases herr with ⟨errs, herr⟩
  rw [herr] at hcontra
  exact ActionResult.noConfusion hcontra

/-- Witness for `action_failure_no_session` at a concrete input whose
credentials are rejected by the verifier. -/
theorem action_failure_no_session_witness :
    (∃ errs, action (fun _ => true) (fun _ _ => none)
      ⟨some (FormValue.str "user@example.com"),
        some (FormValue.str "password123"), none, none⟩ =
      ActionResult.errorResponse 400 errs) ∧
    ∀ uid rem rt, action (fun _ => true) (fun _ _ => none)
      ⟨some (FormValue.str "user@example.com"),
        some (FormValue.str "password123"), none, none⟩ ≠
      ActionResult.sessionResponse uid rem rt :=
  action_failure_no_session (fun _ => true) (fun _ _ => none)
    ⟨some (FormValue.str "user@example.com"),
      some (FormValue.str "password123"), none, none⟩
    (Or.inr (Or.inr (Or.inr ⟨"password123", rfl, rfl⟩)))

/-- C3, counterexample: `getUserId` has result type `userId | null`
(a string or nothing), and the loader guards with JavaScript
truthiness, `if (userId)`.  When `getUserId` returns the empty string
— a user id under the claim's reading — the loader renders normally
instead of redirecting, so the claim as stated fails. -/
theorem loader_claim_false_on_empty_userId :
    loader (some "") = LoaderResult.renderPayload ∧
    loader (some "") ≠ LoaderResult.redirectResponse "/" := by
  decide

/-- C3, amended: the loader redirects to "/" exactly when `getUserId`
returns a truthy (non-empty) user id, and returns the normal render
payload exactly when `getUserId` returns null or the empty string;
the two outcomes are mutually exclusive by the result type. -/
theorem loader_redirects_iff_nonempty_userId (userId : Option String) :
    (loader userId = LoaderResult.redirectResponse "/" ↔
      ∃ s, userId = some s ∧ s ≠ "") ∧
    (loader userId = LoaderResult.renderPayload ↔
      userId = none ∨ userId = some "") := by
  match userId with
  | none => simp [loader]
  | some s =>
    by_cases hs : s = "" <;>
      simp [loader, hs]

/-- Witness for `loader_redirects_iff_nonempty_userId` at concrete
inputs: a non-empty user id redirects. -/
theorem loader_redirects_iff_nonempty_userId_witness :
    loader (some "user-1") = LoaderResult.redirectResponse "/" :=
  (loader_redirects_iff_nonempty_userId (some "user-1")).1.mpr
    ⟨"user-1", rfl, by decide⟩

/-- The index of the first of the action's four ordered checks that
fails, read off the source: 0 — `validateEmail` rejects the email;
1 — the password is not a string; 2 — the password is shorter than 8;
3 — `verifyLogin` yields no user.  `none` when all four pass. -/
def firstFailedCheck (ve : Option FormValue → Bool)
    (vl : Option FormValue → String → Option User)
    (fd : LoginForm) : Option Nat :=
  if !(ve fd.email) then some 0
  else match fd.password with
    | some (FormValue.str pw) =>
      if pw.length < 8 then some 2
      else match vl fd.email pw with
        | none => some 3
        | some _ => none
    | _ => some 1

/-- The fixed error response the action produces for each failed
check; constant, independent of the submitted values. -/
def checkError (k : Nat) : ActionResult :=
  if k = 0 then ActionResult.errorResponse 400 ⟨some "Email is invalid", none⟩
  else if k = 1 then
    ActionResult.errorResponse 400 ⟨none, some "Password is required"⟩
  else if k = 2 then
    ActionResult.errorResponse 400 ⟨none, some "Password is too short"⟩
  else ActionResult.errorResponse 400 ⟨some "Invalid email or password", none⟩

/-- Case analysis of the action against `firstFailedCheck`: either
some check `k < 4` fails first and the action returns the fixed
response `checkError k`, or no check fails and the action returns a
`createUserSession` response. -/
theorem action_firstFailedCheck_cases
    (ve : Option FormValue → Bool)
    (vl : Option FormValue → String → Option User)
    (fd : LoginForm) :
    (∃ k, k < 4 ∧ firstFailedCheck ve vl fd = some k ∧
      action ve vl fd = checkError k) ∨
    (∃ uid rem rt, firstFailedCheck ve vl fd = none ∧
      action ve vl fd = ActionResult.sessionResponse uid rem rt) := by
  by_cases hve : ve fd.email
  · match hfd : fd.password with
    | some (FormValue.str pw) =>
      by_cases hlen : pw.length < 8
      · exact Or.inl ⟨2, by decide,
          by simp [firstFailedCheck, hve, hfd, hlen],
          by simp [action, checkError, hve, hfd, hlen]⟩
      · match hvl : vl fd.email pw with
        | none =>
          exact Or.inl ⟨3, by decide,
            by simp [firstFailedCheck, hve, hfd, hlen, hvl],
            by simp [action, checkError, hve, hfd, hlen, hvl]⟩
        | some u =>
          exact Or.inr ⟨u.id,
            (if fd.remember = some (FormValue.str "on") then true else false),
            (match fd.redirectTo with
             | some (FormValue.str r) => r
             | _ => "/notes"),
            by simp [firstFailedCheck, hve, hfd, hlen, hvl],
            by simp [action, hve, hfd, hlen, hvl]⟩
    | some FormValue.file =>
      exact Or.inl ⟨1, by decide,
        by simp [firstFailedCheck, hve, hfd],
        by simp [action, checkError, hve, hfd]⟩
    | none =>
      exact Or.inl ⟨1, by decide,
        by simp [firstFailedCheck, hve, hfd],
        by simp [action, checkError, hve, hfd]⟩
  · exact Or.inl ⟨0, by decide,
      by simp [firstFailedCheck, hve],
      by simp [action, checkError, hve]⟩

/-- C10: every error response of the action has status 400 and an
errors object drawn from the fixed four-element set — no submitted
credential content flows into an error body — and any two submissions
failing at the same check (as measured by `firstFailedCheck`), under
any collaborators, produce identical responses. -/
theorem action_error_messages_constant :
    (∀ (ve : Option FormValue → Bool)
      (vl : Option FormValue → String → Option User)
      (fd : LoginForm) (st : Nat) (errs : ActionErrors),
      action ve vl fd = ActionResult.errorResponse st errs →
      st = 400 ∧
        (errs = ⟨some "Email is invalid", none⟩ ∨
         errs = ⟨none, some "Password is required"⟩ ∨
         errs = ⟨none, some "Password is too short"⟩ ∨
         errs = ⟨some "Invalid email or password", none⟩)) ∧
    (∀ (ve1 : Option FormValue → Bool)
      (vl1 : Option FormValue → String → Option User) (fd1 : LoginForm)
      (ve2 : Option FormValue → Bool)
      (vl2 : Option FormValue → String → Option User) (fd2 : LoginForm)
      (k : Nat),
      firstFailedCheck ve1 vl1 fd1 = some k →
      firstFailedCheck ve2 vl2 fd2 = some k →
      action ve1 vl1 fd1 = action ve2 vl2 fd2) := by
  constructor
  · intro ve vl fd st errs h
    rcases action_firstFailedCheck_cases ve vl fd with
      ⟨k, hk4, -, hact⟩ | ⟨uid, rem, rt, -, hact⟩
    · rw [h] at hact
      interval_cases k <;> simp [checkError] at hact <;>
        exact ⟨hact.1, by simp [hact.2]⟩
    · rw [h] at hact
      exact ActionResult.noConfusion hact
  · intro ve1 vl1 fd1 ve2 vl2 fd2 k h1 h2
    rcases action_firstFailedCheck_cases ve1 vl1 fd1 with
      ⟨k1, -, hk1, ha1⟩ | ⟨uid, rem, rt, hk1, -⟩
    · rcases action_firstFailedCheck_cases ve2 vl2 fd2 with
        ⟨k2, -, hk2, ha2⟩ | ⟨uid, rem, rt, hk2, -⟩
      · rw [h1] at hk1
        rw [h2] at hk2
        injection hk1 with e1
        injection hk2 with e2
        rw [ha1, ha2, ← e1, ← e2]
      · rw [h2] at hk2
        exact Option.noConfusion hk2
    · rw [h1] at hk1
      exact Option.noConfusion hk1

/-- Witness for `action_error_messages_constant`: both parts applied
at concrete inputs — a rejected email yields the fixed errors object,
and two different submissions failing the email check yield identical
responses. -/
theorem action_error_messages_constant_witness :
    (400 = 400 ∧
      ((⟨some "Email is invalid", none⟩ : ActionErrors) =
          ⟨some "Email is invalid", none⟩ ∨
       (⟨some "Email is invalid", none⟩ : ActionErrors) =
          ⟨none, some "Password is required"⟩ ∨
       (⟨some "Email is invalid", none⟩ : ActionErrors) =
          ⟨none, some "Password is too short"⟩ ∨
       (⟨some "Email is invalid", none⟩ : ActionErrors) =
          ⟨some "Invalid email or password", none⟩)) ∧
    action (fun _ => false) (fun _ _ => none)
      ⟨some (FormValue.str "alice@example.com"),
        some (FormValue.str "secretpass1"), none, none⟩ =
    action (fun _ => false) (fun _ _ => none)
      ⟨some (FormValue.str "bob"), none, none, none⟩ :=
  ⟨action_error_messages_constant.1 (fun _ => false) (fun _ _ => none)
    ⟨some (FormValue.str "alice@example.com"),
      some (FormValue.str "secretpass1"), none, none⟩
    400 ⟨some "Email is invalid", none⟩ (by decide),
   action_error_messages_constant.2 (fun _ => false) (fun _ _ => none)
    ⟨some (FormValue.str "alice@example.com"),
      some (FormValue.str "secretpass1"), none, none⟩
    (fun _ => false) (fun _ _ => none)
    ⟨some (FormValue.str "bob"), none, none, none⟩
    0 (by decide) (by decide)⟩

end GospelStack
